import Mathlib

/-!
# AVS_testing: a verification development

Shallow embedding of `src/AVS_testing/AVS_testing.cpp`.

The program reads a YAML manifest, posts one download task per manifest entry on a
strand of a single `io_context`, runs the context, and returns.  Each task downloads
the entry's `file` (an URL) into a local file called after the entry's `name`; its
completion callback optionally unpacks the downloaded file with libarchive.

The third-party libraries (yaml-cpp, curl, the C runtime, libarchive) are the
environment.  Every call whose result the program inspects is answered by an oracle of
the `World` structure and is recorded, with its result, in the trace of the run.
-/

namespace AVS

/-! ## Data model (lines 18-31) -/

/-- The `FileAction` struct of the source (lines 19-24). -/
structure FileAction where
  name : String
  file : String
  actions : List String
  dependencies : List String
  deriving DecidableEq, Repr

/-- The `Config` struct of the source (lines 27-31). -/
structure Config where
  files : List FileAction
  host : String
  endpoint : String
  deriving DecidableEq, Repr

/-- One element of the `files` sequence of the YAML document, as yaml-cpp presents it to
`parseConfig`.  For `name` and `file` the value is what `as<string>()` returns, and `none`
when the key is missing or its node is not a scalar, in which case `as<string>()` throws
(lines 39-40).  The `dependencies` key may be absent (line 44).  The items of `actions`
and of `dependencies` are the strings that iterating those nodes yields. -/
structure FileNode where
  name : Option String
  file : Option String
  actions : List String
  dependencies : Option (List String)
  deriving DecidableEq, Repr

/-- The YAML document that `YAML::LoadFile` returns, with the keys `parseConfig` reads.
For `host` and `endpoint` the value is what `as<string>()` returns, and `none` when the key
is missing or its node is not a scalar, in which case `as<string>()` throws (lines 51-52). -/
structure YamlNode where
  files : List FileNode
  host : Option String
  endpoint : Option String
  deriving DecidableEq, Repr

/-! ## libarchive result codes

The header `archive.h` is not part of the repository; the values below are the ones that
header defines. -/

/-- The value of `ARCHIVE_EOF` in `archive.h`. -/
def ARCHIVE_EOF : Int := 1
/-- The value of `ARCHIVE_OK` in `archive.h`. -/
def ARCHIVE_OK : Int := 0
/-- The value of `ARCHIVE_RETRY` in `archive.h`. -/
def ARCHIVE_RETRY : Int := -10
/-- The value of `ARCHIVE_WARN` in `archive.h`. -/
def ARCHIVE_WARN : Int := -20
/-- The value of `ARCHIVE_FAILED` in `archive.h`. -/
def ARCHIVE_FAILED : Int := -25
/-- The value of `ARCHIVE_FATAL` in `archive.h`. -/
def ARCHIVE_FATAL : Int := -30
/-- The value of `CURLE_OK` in `curl/curl.h`. -/
def CURLE_OK : Int := 0

/-! ## The environment -/

/-- One round of the loop of `copyData`: what `archive_read_data_block` returns and, when
the program goes on to write, what `archive_write_data_block` returns. -/
structure DataBlock where
  read_result : Int
  write_result : Int
  deriving DecidableEq, Repr

/-- What libarchive answers for one iteration of the loop of `unpack`: the result of
`archive_read_next_header`, the path name and size of the entry, the result of
`archive_write_header`, the data blocks `copyData` will see, and the result of
`archive_write_finish_entry`.  An archive is a finite list of these; once the list is
used up, `archive_read_next_header` answers `ARCHIVE_EOF`, and once the blocks of an
entry are used up, `archive_read_data_block` answers `ARCHIVE_EOF`. -/
structure ArchiveEntry where
  header_result : Int
  pathname : String
  size : Int
  write_header_result : Int
  blocks : List DataBlock
  finish_result : Int
  deriving DecidableEq, Repr

/-- The answers of the environment.  Each oracle is a function of the arguments of the
call it answers; `curl_easy_init`, which has no argument, is keyed by the arguments of
the enclosing `do_download`. -/
structure World where
  /-- Is the handle that `curl_easy_init` returns non-null (line 71)? -/
  curl_easy_init : String → String → Bool
  /-- Is the stream that `fopen_s(&fp, file, "wb")` yields non-null (line 73)? -/
  fopen_s : String → Bool
  /-- The `CURLcode` of `curl_easy_perform` for a transfer of `url` into `file` (line 82). -/
  curl_easy_perform : String → String → Int
  /-- The result of `archive_read_open_filename` (line 140). -/
  archive_read_open_filename : String → Int
  /-- The entries libarchive yields for the archive of that file name. -/
  archive_entries : String → List ArchiveEntry

/-- The lines the program writes to `cout` and `cerr`. -/
inductive Msg where
  /-- Line 185: the usage line, with `argv[0]`. -/
  | usage (argv0 : String)
  /-- Line 75: the output file could not be opened. -/
  | open_error (file : String)
  /-- Line 86: the transfer failed, with `curl_easy_strerror(res)`. -/
  | transfer_error (res : Int)
  /-- Line 141: the archive could not be opened. -/
  | archive_open_error (filename : String)
  /-- Lines 116, 150, 158, 162, 168: `archive_error_string`. -/
  | archive_error
  /-- Line 196: downloaded. -/
  | loaded (name : String)
  /-- Line 199: unpacked. -/
  | unpacked (name : String)
  /-- Line 202: could not unpack. -/
  | unpack_failed (name : String)
  /-- Line 207: could not download. -/
  | load_failed (name : String)
  deriving DecidableEq, Repr

/-- The observable steps of a run: the library calls whose result the program inspects,
with that result, and the lines written to the two streams. -/
inductive Event where
  | curl_easy_init (url file : String) (ok : Bool)
  | fopen_s (file : String) (ok : Bool)
  | curl_easy_perform (url file : String) (res : Int)
  | archive_read_open_filename (filename : String) (r : Int)
  | archive_read_next_header (r : Int)
  | archive_write_header (path : String) (r : Int)
  | archive_read_data_block (r : Int)
  | archive_write_data_block (r : Int)
  | archive_write_finish_entry (r : Int)
  | cout (m : Msg)
  | cerr (m : Msg)
  deriving DecidableEq, Repr

/-- How the process ends: `main` returns a code, or an exception of yaml-cpp leaves `main`. -/
inductive Exit where
  | returned (code : Int)
  | uncaught_exception
  deriving DecidableEq, Repr

/-! ## `parseConfig` (lines 34-54) -/

/-- The body of the loop of `parseConfig` (lines 38-49); `none` when one of the two
`as<string>()` of lines 39-40 throws. -/
def parseFile (fileNode : FileNode) : Option FileAction :=
  match fileNode.name with
  | none => none
  | some name =>
    match fileNode.file with
    | none => none
    | some file =>
      some { name := name
             file := file
             actions := fileNode.actions
             dependencies :=
               match fileNode.dependencies with
               | some ds => ds
               | none => [] }

/-- The loop of `parseConfig` (lines 37-50): the entries are parsed and pushed in order;
`none` when the body throws for one of them. -/
def parseFiles : List FileNode → Option (List FileAction)
  | [] => some []
  | fileNode :: rest =>
    match parseFile fileNode with
    | none => none
    | some fileAction =>
      match parseFiles rest with
      | none => none
      | some files => some (fileAction :: files)

/-- The function `parseConfig` applied to the loaded document (lines 36-53); `none` when
an exception of yaml-cpp leaves it: in the loop, or at `host` (line 51), or at `endpoint`
(line 52). -/
def parseConfig (config : YamlNode) : Option Config :=
  match parseFiles config.files with
  | none => none
  | some files =>
    match config.host with
    | none => none
    | some host =>
      match config.endpoint with
      | none => none
      | some endpoint => some { files := files, host := host, endpoint := endpoint }

/-! ## `Downloader` (lines 57-99) -/

/-- The method `Downloader::do_download` (lines 67-96).  The callback is a function from
the flag it is called with to the trace of its body. -/
def do_download (w : World) (url file : String) (callback : Bool → List Event) :
    List Event :=
  if w.curl_easy_init url file then
    if !w.fopen_s file then
      [Event.curl_easy_init url file true, Event.fopen_s file false,
        Event.cerr (Msg.open_error file)] ++ callback false
    else
      let res := w.curl_easy_perform url file
      if res ≠ CURLE_OK then
        [Event.curl_easy_init url file true, Event.fopen_s file true,
          Event.curl_easy_perform url file res, Event.cerr (Msg.transfer_error res)]
          ++ callback false
      else
        [Event.curl_easy_init url file true, Event.fopen_s file true,
          Event.curl_easy_perform url file res] ++ callback true
  else
    [Event.curl_easy_init url file false] ++ callback false

/-- A handler posted on the strand (the lambda of line 63). -/
structure Handler where
  url : String
  file : String
  callback : Bool → List Event

/-- The method `Downloader::download` (lines 62-64): the handler is posted behind the
handlers already queued on the strand; nothing runs yet. -/
def download (strand : List Handler) (url file : String) (callback : Bool → List Event) :
    List Handler :=
  strand ++ [{ url := url, file := file, callback := callback }]

/-- The call `io_context.run()` of line 212: the strand runs its handlers one at a time,
in the order they were posted, until none is left. -/
def io_context_run (w : World) (strand : List Handler) : List Event :=
  strand.flatMap (fun h => do_download w h.url h.file h.callback)

/-! ## `copyData` and `unpack` (lines 102-177) -/

/-- The conversion of a `la_ssize_t` to `int` (lines 113 and 114): the value is reduced
modulo `2^32` into the range of a 32-bit `int`. -/
def static_cast_int (x : Int) : Int :=
  (x + 2147483648) % 4294967296 - 2147483648

/-- The function `copyData` (lines 102-120), on the blocks the archive yields for the
current entry.  `read_result` is a `la_ssize_t` and is converted to `int` when it is
returned (line 113); the result of `archive_write_data_block` is converted to `int` when it
is stored in `write_result` (line 114). -/
def copyData : List DataBlock → Int × List Event
  | [] => (ARCHIVE_OK, [Event.archive_read_data_block ARCHIVE_EOF])
  | b :: rest =>
    let read_result := b.read_result
    if read_result = ARCHIVE_EOF then
      (ARCHIVE_OK, [Event.archive_read_data_block b.read_result])
    else if read_result < ARCHIVE_OK then
      (static_cast_int read_result, [Event.archive_read_data_block b.read_result])
    else
      let write_result := static_cast_int b.write_result
      if write_result < ARCHIVE_OK then
        (write_result, [Event.archive_read_data_block b.read_result,
          Event.archive_write_data_block b.write_result, Event.cerr Msg.archive_error])
      else
        ((copyData rest).1, Event.archive_read_data_block b.read_result ::
          Event.archive_write_data_block b.write_result :: (copyData rest).2)

/-- Lines 156-165 of `unpack` for one entry: write the header, copy the data.  The first
component tells whether the `return false` of line 164 is taken.  The variable `r` holds
the result of `archive_write_header`; the result of `copyData` (line 160) is dropped, so
the tests of lines 161 and 163 look at `r` again. -/
def unpack_write (outdir : String) (e : ArchiveEntry) : Bool × List Event :=
  let fullOutputPath := outdir ++ "/" ++ e.pathname
  let r := e.write_header_result
  if r < ARCHIVE_OK then
    (false, [Event.archive_write_header fullOutputPath r, Event.cerr Msg.archive_error])
  else if e.size > 0 then
    (decide (r < ARCHIVE_WARN),
      [Event.archive_write_header fullOutputPath r] ++ (copyData e.blocks).2 ++
        (if r < ARCHIVE_OK then [Event.cerr Msg.archive_error] else []))
  else
    (false, [Event.archive_write_header fullOutputPath r])

/-- The loop of `unpack` (lines 145-171).  The first component is `false` when a
`return false` is taken and `true` when the loop is left by the `break` of line 148. -/
def unpack_loop (outdir : String) : List ArchiveEntry → Bool × List Event
  | [] => (true, [Event.archive_read_next_header ARCHIVE_EOF])
  | e :: rest =>
    let r := e.header_result
    if r = ARCHIVE_EOF then
      (true, [Event.archive_read_next_header r])
    else
      let ev1 := Event.archive_read_next_header r ::
        (if r < ARCHIVE_OK then [Event.cerr Msg.archive_error] else [])
      if r < ARCHIVE_WARN then
        (false, ev1)
      else
        let wr := unpack_write outdir e
        if wr.1 then
          (false, ev1 ++ wr.2)
        else
          let r := e.finish_result
          let ev2 := Event.archive_write_finish_entry r ::
            (if r < ARCHIVE_OK then [Event.cerr Msg.archive_error] else [])
          if r < ARCHIVE_WARN then
            (false, ev1 ++ wr.2 ++ ev2)
          else
            ((unpack_loop outdir rest).1, ev1 ++ wr.2 ++ ev2 ++ (unpack_loop outdir rest).2)

/-- The function `unpack` (lines 123-177). -/
def unpack (w : World) (filename outdir : String) : Bool × List Event :=
  let r := w.archive_read_open_filename filename
  if r ≠ 0 then
    (false, [Event.archive_read_open_filename filename r,
      Event.cerr (Msg.archive_open_error filename)])
  else
    ((unpack_loop outdir (w.archive_entries filename)).1,
      Event.archive_read_open_filename filename r ::
        (unpack_loop outdir (w.archive_entries filename)).2)

/-! ## `main` (lines 180-215) -/

/-- The completion callback of `main` (the lambda of lines 194-209). -/
def main_callback (w : World) (file : FileAction) (success : Bool) : List Event :=
  if success then
    Event.cout (Msg.loaded file.name) ::
      (if !file.actions.isEmpty && file.actions.head? == some "unpack" then
        if (unpack w file.name "output_directory").1 then
          (unpack w file.name "output_directory").2 ++ [Event.cout (Msg.unpacked file.name)]
        else
          (unpack w file.name "output_directory").2 ++
            [Event.cerr (Msg.unpack_failed file.name)]
      else [])
  else
    [Event.cerr (Msg.load_failed file.name)]

/-- The loop of lines 193-210: one `download` per element of `cfg.files`, in order. -/
def post_all (w : World) (files : List FileAction) : List Handler :=
  files.foldl (fun strand file => download strand file.file file.name (main_callback w file)) []

/-- The function `main` (lines 180-215).  `LoadFile` is `YAML::LoadFile`: `none` stands for
the exception it throws on a file it cannot load.  That exception and those of
`parseConfig` are not caught: they leave `main` at line 189, before anything is posted. -/
def main (LoadFile : String → Option YamlNode) (w : World) (argv : List String) :
    Exit × List Event :=
  if argv.length < 2 then
    (Exit.returned 1, [Event.cerr (Msg.usage (argv.headD ""))])
  else
    match LoadFile (argv.getD 1 "") with
    | none => (Exit.uncaught_exception, [])
    | some config =>
      match parseConfig config with
      | none => (Exit.uncaught_exception, [])
      | some cfg => (Exit.returned 0, io_context_run w (post_all w cfg.files))

/-! ## Notions used to state the properties -/

/-- The flag `do_download` hands to its callback: `true` exactly when the handle is
non-null, the output file opens and the transfer returns `CURLE_OK`. -/
def fetch_result (w : World) (url file : String) : Bool :=
  w.curl_easy_init url file && w.fopen_s file &&
    decide (w.curl_easy_perform url file = CURLE_OK)

/-- The steps of `do_download` itself, without those of its callback. -/
def fetch_events (w : World) (url file : String) : List Event :=
  do_download w url file (fun _ => [])

/-- The steps of the handler that `main` posts for one element of `cfg.files`. -/
def artifact_trace (w : World) (file : FileAction) : List Event :=
  do_download w file.file file.name (main_callback w file)

/-- The event is a call of `curl_easy_init` made for the download of `url` into `file`:
the first step of every run of `do_download`. -/
def is_fetch_start (url file : String) : Event → Bool
  | Event.curl_easy_init u f _ => u == url && f == file
  | _ => false

/-- The event is a call of `curl_easy_perform`. -/
def is_transfer : Event → Bool
  | Event.curl_easy_perform _ _ _ => true
  | _ => false

/-- The event is a call into libarchive, that is, a step of `unpack`. -/
def is_extractor_step : Event → Bool
  | Event.archive_read_open_filename _ _ => true
  | Event.archive_read_next_header _ => true
  | Event.archive_write_header _ _ => true
  | Event.archive_read_data_block _ => true
  | Event.archive_write_data_block _ => true
  | Event.archive_write_finish_entry _ => true
  | _ => false

/-- The event is one of the two lines by which the callback of `main` reports the outcome
of the download of the artifact `name` (lines 196 and 207). -/
def is_outcome (name : String) : Event → Bool
  | Event.cout (Msg.loaded n) => n == name
  | Event.cerr (Msg.load_failed n) => n == name
  | _ => false

/-- The event is one of the four lines the callback of `main` writes about the artifact
`name` (lines 196, 199, 202 and 207). -/
def is_report (name : String) : Event → Bool
  | Event.cout (Msg.loaded n) => n == name
  | Event.cout (Msg.unpacked n) => n == name
  | Event.cerr (Msg.unpack_failed n) => n == name
  | Event.cerr (Msg.load_failed n) => n == name
  | _ => false

/-- The dependency relation of the manifest, as section 3 of the specification describes
it: `a` depends on `b` when an artifact called `a` lists `b`. -/
def depends_on (cfg : Config) (a b : String) : Prop :=
  ∃ f ∈ cfg.files, f.name = a ∧ b ∈ f.dependencies

/-- The dependency relation of the manifest contains a cycle. -/
def has_cycle (cfg : Config) : Prop :=
  ∃ a, Relation.TransGen (depends_on cfg) a a

/-- The document with every `dependencies` key removed. -/
def erase_dependencies (config : YamlNode) : YamlNode :=
  { config with files := config.files.map (fun f => { f with dependencies := none }) }

/-- The manifest entry with its action list cut down to what the callback of `main` looks
at: whether the first action is `"unpack"`. -/
def first_action_only (file : FileAction) : FileAction :=
  { file with actions := if file.actions.head? = some "unpack" then ["unpack"] else [] }

/-- The callback of `main` reports a failure for the artifact: the download failed, or the
download succeeded, the first action is `"unpack"` and `unpack` returned `false`. -/
def artifact_failed (w : World) (file : FileAction) : Bool :=
  !fetch_result w file.file file.name ||
    (!file.actions.isEmpty && file.actions.head? == some "unpack" &&
      !(unpack w file.name "output_directory").1)

/-- The event is a step of `unpack`: a call into libarchive or one of the lines `unpack`
and `copyData` write to `cerr`. -/
def is_unpack_event : Event → Bool
  | Event.cerr Msg.archive_error => true
  | Event.cerr (Msg.archive_open_error _) => true
  | e => is_extractor_step e

/-- The two worlds answer alike every call that is not made for the file `name`. -/
def agree_off (name : String) (w w2 : World) : Prop :=
  ∀ file, file ≠ name →
    (∀ url, w.curl_easy_init url file = w2.curl_easy_init url file) ∧
    w.fopen_s file = w2.fopen_s file ∧
    (∀ url, w.curl_easy_perform url file = w2.curl_easy_perform url file) ∧
    w.archive_read_open_filename file = w2.archive_read_open_filename file ∧
    w.archive_entries file = w2.archive_entries file

/-- The entry is read and finished without a code below `ARCHIVE_WARN`, and its header is
not the end of the archive. -/
def entry_passes (e : ArchiveEntry) : Prop :=
  e.header_result ≠ ARCHIVE_EOF ∧ ¬ e.header_result < ARCHIVE_WARN ∧
    ¬ e.finish_result < ARCHIVE_WARN

/-- What an iteration of the loop of `unpack` that calls `archive_write_finish_entry` is
expected to do, written out step by step: the header is read (an error line follows a
negative code); the header is written under `outdir`; when that fails an error line
follows and no data is copied, otherwise the data of an entry of positive size is copied
by `copyData`; the entry is finished (an error line follows a negative code). -/
def entry_events (outdir : String) (e : ArchiveEntry) : List Event :=
  [Event.archive_read_next_header e.header_result] ++
    (if e.header_result < 0 then [Event.cerr Msg.archive_error] else []) ++
    [Event.archive_write_header (outdir ++ "/" ++ e.pathname) e.write_header_result] ++
    (if e.write_header_result < 0 then [Event.cerr Msg.archive_error]
      else if 0 < e.size then (copyData e.blocks).2 else []) ++
    [Event.archive_write_finish_entry e.finish_result] ++
    (if e.finish_result < 0 then [Event.cerr Msg.archive_error] else [])

/-- What the iteration of the loop of `unpack` that aborts is expected to do: when the
header cannot be read, it is read and an error line is written; otherwise the entry is
processed up to and including `archive_write_finish_entry`. -/
def failing_entry_events (outdir : String) (e : ArchiveEntry) : List Event :=
  if e.header_result < ARCHIVE_WARN then
    [Event.archive_read_next_header e.header_result, Event.cerr Msg.archive_error]
  else entry_events outdir e

/-- The event is a call of `archive_read_next_header`: the start of an iteration of the
loop of `unpack`. -/
def is_next_header : Event → Bool
  | Event.archive_read_next_header _ => true
  | _ => false

/-- The event is one of the two lines by which the callback of `main` reports the outcome
of the unpacking of the artifact `name` (lines 199 and 202). -/
def is_unpack_report (name : String) : Event → Bool
  | Event.cout (Msg.unpacked n) => n == name
  | Event.cerr (Msg.unpack_failed n) => n == name
  | _ => false

/-- For this entry `copyData` is called (the header was written without error and the
entry has data) and returns a code below `ARCHIVE_WARN`. -/
def copy_unrecoverable (e : ArchiveEntry) : Prop :=
  ¬ e.write_header_result < ARCHIVE_OK ∧ e.size > 0 ∧ (copyData e.blocks).1 < ARCHIVE_WARN

/-! ## Concrete inputs -/

/-- A world in which every call succeeds and every archive is empty. -/
def world_ok : World :=
  { curl_easy_init := fun _ _ => true
    fopen_s := fun _ => true
    curl_easy_perform := fun _ _ => CURLE_OK
    archive_read_open_filename := fun _ => 0
    archive_entries := fun _ => [] }

/-- A world in which the transfer into the file `A` fails with code 7
(`CURLE_COULDNT_CONNECT`) and every other call succeeds. -/
def world_A_unreachable : World :=
  { world_ok with curl_easy_perform := fun _ file => if file = "A" then 7 else CURLE_OK }

/-- A world in which the output file `A` cannot be opened. -/
def world_A_unwritable : World :=
  { world_ok with fopen_s := fun file => !(file == "A") }

/-- Scenario 2 of the specification: `A` has no dependency, `B` depends on `A`. -/
def manifest_chain : YamlNode :=
  { files := [⟨some "A", some "http://host/a", [], none⟩, ⟨some "B", some "http://host/b", [], some ["A"]⟩]
    host := some "host"
    endpoint := some "/" }

/-- Scenario 4 of the specification: `A` depends on `B` and `B` depends on `A`. -/
def manifest_cycle : YamlNode :=
  { files := [⟨some "A", some "http://host/a", [], some ["B"]⟩, ⟨some "B", some "http://host/b", [], some ["A"]⟩]
    host := some "host"
    endpoint := some "/" }

/-- Scenario 5 of the specification: one artifact with the actions `fetch`, `badaction`. -/
def manifest_badaction : YamlNode :=
  { files := [⟨some "X", some "http://host/x", ["fetch", "badaction"], none⟩]
    host := some "host"
    endpoint := some "/" }

/-- One artifact with the actions `fetch`, `unpack`. -/
def manifest_fetch_unpack : YamlNode :=
  { files := [⟨some "X", some "http://host/x", ["fetch", "unpack"], none⟩]
    host := some "host"
    endpoint := some "/" }

/-- The manifest `manifest_chain` without the dependency of `B` on `A`. -/
def manifest_chain_nodeps : YamlNode :=
  { files := [⟨some "A", some "http://host/a", [], none⟩, ⟨some "B", some "http://host/b", [], none⟩]
    host := some "host"
    endpoint := some "/" }

/-- The loader that yields the given document for every path. -/
def load_const (config : YamlNode) : String → Option YamlNode :=
  fun _ => some config

/-- An entry whose header cannot be written to disk (`ARCHIVE_FATAL`); everything else
succeeds. -/
def entry_write_header_fatal : ArchiveEntry :=
  { header_result := ARCHIVE_OK, pathname := "first", size := 4,
    write_header_result := ARCHIVE_FATAL, blocks := [], finish_result := ARCHIVE_OK }

/-- An entry whose data cannot be written (`archive_write_data_block` answers
`ARCHIVE_FATAL`); everything else succeeds. -/
def entry_copy_fatal : ArchiveEntry :=
  { header_result := ARCHIVE_OK, pathname := "first", size := 4,
    write_header_result := ARCHIVE_OK,
    blocks := [{ read_result := ARCHIVE_OK, write_result := ARCHIVE_FATAL }],
    finish_result := ARCHIVE_OK }

/-- An entry that cannot be finished (`archive_write_finish_entry` answers
`ARCHIVE_FAILED`). -/
def entry_finish_failed : ArchiveEntry :=
  { header_result := ARCHIVE_OK, pathname := "first", size := 0,
    write_header_result := ARCHIVE_OK, blocks := [], finish_result := ARCHIVE_FAILED }

/-- An empty entry for which every call succeeds. -/
def entry_fine : ArchiveEntry :=
  { header_result := ARCHIVE_OK, pathname := "second", size := 0,
    write_header_result := ARCHIVE_OK, blocks := [], finish_result := ARCHIVE_OK }

/-- A world that succeeds everywhere and yields the given entries for every archive. -/
def world_archive (entries : List ArchiveEntry) : World :=
  { world_ok with archive_entries := fun _ => entries }

/-- A world in which no archive can be opened (`archive_read_open_filename` answers
`ARCHIVE_FATAL`) and every other call succeeds. -/
def world_archive_unreadable : World :=
  { world_ok with archive_read_open_filename := fun _ => ARCHIVE_FATAL }

/-- Scenario 1 of the specification: one artifact with the single action `unpack`. -/
def manifest_unpack : YamlNode :=
  { files := [⟨some "X", some "http://host/x", ["unpack"], none⟩]
    host := some "host"
    endpoint := some "/" }

/-- The manifest `manifest_cycle` without its `host` key. -/
def manifest_cycle_no_host : YamlNode :=
  { manifest_cycle with host := none }

/-! ## Structure of a run -/

theorem do_download_eq (w : World) (url file : String) (callback : Bool → List Event) :
    do_download w url file callback =
      fetch_events w url file ++ callback (fetch_result w url file) := by
  unfold fetch_events fetch_result do_download
  cases h1 : w.curl_easy_init url file <;> cases h2 : w.fopen_s file <;>
    by_cases h3 : w.curl_easy_perform url file = CURLE_OK <;> simp [h3]

theorem post_all_aux (w : World) (files : List FileAction) (strand : List Handler) :
    files.foldl
        (fun strand file => download strand file.file file.name (main_callback w file)) strand
      = strand ++ files.map
          (fun file => { url := file.file, file := file.name, callback := main_callback w file }) := by
  induction files generalizing strand with
  | nil => simp
  | cons f fs ih =>
    rw [List.foldl_cons, ih]
    simp [download]

theorem post_all_eq (w : World) (files : List FileAction) :
    post_all w files = files.map
      (fun file => { url := file.file, file := file.name, callback := main_callback w file }) := by
  unfold post_all
  rw [post_all_aux]
  simp

theorem run_post_all (w : World) (files : List FileAction) :
    io_context_run w (post_all w files) = files.flatMap (artifact_trace w) := by
  rw [post_all_eq]
  unfold io_context_run artifact_trace
  induction files with
  | nil => rfl
  | cons f fs ih => simp [List.flatMap_cons, ih]

theorem main_eq (LoadFile : String → Option YamlNode) (w : World) (prog path : String)
    (config : YamlNode) (cfg : Config) (h : LoadFile path = some config)
    (hp : parseConfig config = some cfg) :
    main LoadFile w [prog, path] =
      (Exit.returned 0, cfg.files.flatMap (artifact_trace w)) := by
  simp [main, h, hp, run_post_all]

theorem main_throws (LoadFile : String → Option YamlNode) (w : World) (prog path : String)
    (h : (LoadFile path).bind parseConfig = none) :
    main LoadFile w [prog, path] = (Exit.uncaught_exception, []) := by
  cases hl : LoadFile path with
  | none => simp [main, hl]
  | some config =>
    rw [hl] at h
    have hp : parseConfig config = none := by simpa using h
    simp [main, hl, hp]

theorem fetch_events_head (w : World) (url file : String) :
    ∃ rest, fetch_events w url file =
      Event.curl_easy_init url file (w.curl_easy_init url file) :: rest := by
  unfold fetch_events do_download
  cases h1 : w.curl_easy_init url file <;> cases h2 : w.fopen_s file <;>
    by_cases h3 : w.curl_easy_perform url file = CURLE_OK <;> simp [h3]

theorem artifact_trace_head (w : World) (file : FileAction) :
    ∃ rest, artifact_trace w file =
      Event.curl_easy_init file.file file.name (w.curl_easy_init file.file file.name) :: rest := by
  obtain ⟨rest, h⟩ := fetch_events_head w file.file file.name
  exact ⟨rest ++ main_callback w file (fetch_result w file.file file.name), by
    rw [artifact_trace, do_download_eq, h]; rfl⟩

theorem mem_main_of_mem_artifact (LoadFile : String → Option YamlNode) (w : World)
    (prog path : String) (config : YamlNode) (cfg : Config) (h : LoadFile path = some config)
    (hp : parseConfig config = some cfg)
    (file : FileAction) (hf : file ∈ cfg.files) (e : Event)
    (he : e ∈ artifact_trace w file) : e ∈ (main LoadFile w [prog, path]).2 := by
  rw [main_eq LoadFile w prog path config cfg h hp]
  exact List.mem_flatMap.mpr ⟨file, hf, he⟩

theorem main_callback_first_action_only (w : World) (file : FileAction) (success : Bool) :
    main_callback w file success = main_callback w (first_action_only file) success := by
  unfold main_callback first_action_only
  cases success
  · simp
  · by_cases h : file.actions.head? = some "unpack"
    · have hne : file.actions.isEmpty = false := by
        cases hl : file.actions with
        | nil => rw [hl] at h; simp at h
        | cons a l => rfl
      simp [h, hne]
    · have hb : (file.actions.head? == some "unpack") = false := by simpa using h
      simp [h, hb]

theorem main_callback_no_unpack (w : World) (file : FileAction) (success : Bool)
    (h : file.actions.head? ≠ some "unpack") :
    main_callback w file success =
      [if success then Event.cout (Msg.loaded file.name)
        else Event.cerr (Msg.load_failed file.name)] := by
  have hb : (file.actions.head? == some "unpack") = false := by simpa using h
  unfold main_callback
  cases success <;> simp [hb]

theorem main_callback_unpack (w : World) (file : FileAction)
    (h : file.actions.head? = some "unpack") :
    main_callback w file true =
      Event.cout (Msg.loaded file.name) :: ((unpack w file.name "output_directory").2 ++
        [if (unpack w file.name "output_directory").1 then Event.cout (Msg.unpacked file.name)
          else Event.cerr (Msg.unpack_failed file.name)]) := by
  have hne : file.actions.isEmpty = false := by
    cases hl : file.actions with
    | nil => rw [hl] at h; simp at h
    | cons a l => rfl
  unfold main_callback
  cases hu : (unpack w file.name "output_directory").1 <;> simp [h, hne]

theorem fetch_events_no_extractor (w : World) (url file : String) :
    ∀ e ∈ fetch_events w url file, is_extractor_step e = false := by
  unfold fetch_events do_download
  cases h1 : w.curl_easy_init url file <;> cases h2 : w.fopen_s file <;>
    by_cases h3 : w.curl_easy_perform url file = CURLE_OK <;>
    simp [h3, is_extractor_step]

/-! ## The steps of `unpack` and of the callback -/

theorem copyData_events (blocks : List DataBlock) :
    ∀ e ∈ (copyData blocks).2, is_unpack_event e = true := by
  induction blocks with
  | nil => simp [copyData, is_unpack_event, is_extractor_step]
  | cons b rest ih =>
    unfold copyData
    simp only
    split_ifs <;> simp [is_unpack_event, is_extractor_step]
    exact ih

theorem unpack_write_no_abort (outdir : String) (entry : ArchiveEntry) :
    (unpack_write outdir entry).1 = false := by
  by_cases h1 : entry.write_header_result < ARCHIVE_OK
  · simp [unpack_write, h1]
  · by_cases h2 : entry.size > 0
    · simp only [unpack_write, h1, h2, if_true, if_false, decide_eq_false_iff_not]
      unfold ARCHIVE_OK at h1
      unfold ARCHIVE_WARN
      omega
    · simp [unpack_write, h1, h2]

theorem unpack_write_steps (outdir : String) (entry : ArchiveEntry) :
    (unpack_write outdir entry).2 =
      [Event.archive_write_header (outdir ++ "/" ++ entry.pathname) entry.write_header_result] ++
        (if entry.write_header_result < 0 then [Event.cerr Msg.archive_error]
          else if 0 < entry.size then (copyData entry.blocks).2 else []) := by
  by_cases h1 : entry.write_header_result < 0
  · simp [unpack_write, ARCHIVE_OK, h1]
  · by_cases h2 : 0 < entry.size
    · simp [unpack_write, ARCHIVE_OK, h1, h2]
    · simp [unpack_write, ARCHIVE_OK, h1, h2]

theorem entry_events_events (outdir : String) (entry : ArchiveEntry) :
    ∀ e ∈ entry_events outdir entry, is_unpack_event e = true := by
  intro e he
  unfold entry_events at he
  simp only [List.mem_append, List.mem_singleton] at he
  rcases he with ((((he | he) | he) | he) | he) | he
  · subst he; rfl
  · split_ifs at he <;> simp at he
    subst he; rfl
  · subst he; rfl
  · split_ifs at he
    · simp at he
      subst he; rfl
    · exact copyData_events _ e he
    · simp at he
  · subst he; rfl
  · split_ifs at he <;> simp at he
    subst he; rfl

theorem unpack_loop_cons (outdir : String) (entry : ArchiveEntry) (rest : List ArchiveEntry) :
    unpack_loop outdir (entry :: rest) =
      if entry.header_result = ARCHIVE_EOF then
        (true, [Event.archive_read_next_header entry.header_result])
      else if entry.header_result < ARCHIVE_WARN then
        (false, failing_entry_events outdir entry)
      else if entry.finish_result < ARCHIVE_WARN then
        (false, entry_events outdir entry)
      else
        ((unpack_loop outdir rest).1, entry_events outdir entry ++ (unpack_loop outdir rest).2) := by
  rw [unpack_loop]
  by_cases h1 : entry.header_result = ARCHIVE_EOF
  · simp [h1]
  · by_cases h2 : entry.header_result < ARCHIVE_WARN
    · have h4 : entry.header_result < ARCHIVE_OK := by
        unfold ARCHIVE_WARN at h2
        unfold ARCHIVE_OK
        omega
      simp [h1, h2, h4, failing_entry_events]
    · by_cases h3 : entry.finish_result < ARCHIVE_WARN
      · simp [h1, h2, h3, unpack_write_no_abort, unpack_write_steps, entry_events, ARCHIVE_OK]
      · simp [h1, h2, h3, unpack_write_no_abort, unpack_write_steps, entry_events, ARCHIVE_OK]

theorem unpack_loop_events (outdir : String) (entries : List ArchiveEntry) :
    ∀ e ∈ (unpack_loop outdir entries).2, is_unpack_event e = true := by
  induction entries with
  | nil =>
    intro e he
    simp [unpack_loop] at he
    subst he; rfl
  | cons entry rest ih =>
    intro e he
    rw [unpack_loop_cons] at he
    by_cases h1 : entry.header_result = ARCHIVE_EOF
    · simp [h1] at he
      subst he; rfl
    · by_cases h2 : entry.header_result < ARCHIVE_WARN
      · simp [h1, h2, failing_entry_events] at he
        rcases he with he | he <;> subst he <;> rfl
      · by_cases h3 : entry.finish_result < ARCHIVE_WARN
        · simp only [h1, h2, h3, if_true, if_false] at he
          exact entry_events_events outdir entry e he
        · simp only [h1, h2, h3, if_true, if_false, List.mem_append] at he
          rcases he with he | he
          · exact entry_events_events outdir entry e he
          · exact ih e he

theorem unpack_events (w : World) (filename outdir : String) :
    ∀ e ∈ (unpack w filename outdir).2, is_unpack_event e = true := by
  intro e he
  by_cases h : w.archive_read_open_filename filename = 0
  · simp only [unpack, h, ne_eq, not_true_eq_false, if_false, List.mem_cons] at he
    rcases he with he | he
    · subst he; rfl
    · exact unpack_loop_events outdir _ e he
  · simp only [unpack, h, ne_eq, not_false_eq_true, if_true, List.mem_cons] at he
    rcases he with he | he | he
    · subst he; rfl
    · subst he; rfl
    · simp at he

theorem is_outcome_of_unpack_event (name : String) (e : Event) (h : is_unpack_event e = true) :
    is_outcome name e = false := by
  cases e with
  | cout m => simp [is_unpack_event, is_extractor_step] at h
  | cerr m => cases m <;> simp [is_unpack_event, is_extractor_step] at h <;> rfl
  | _ => rfl

theorem fetch_events_outcome_count (w : World) (url file name : String) :
    (fetch_events w url file).countP (is_outcome name) = 0 := by
  unfold fetch_events do_download
  cases h1 : w.curl_easy_init url file <;> cases h2 : w.fopen_s file <;>
    by_cases h3 : w.curl_easy_perform url file = CURLE_OK <;>
    simp [h3, is_outcome, List.countP_cons]

theorem unpack_outcome_count (w : World) (filename outdir name : String) :
    (unpack w filename outdir).2.countP (is_outcome name) = 0 := by
  rw [List.countP_eq_zero]
  intro e he
  simp [is_outcome_of_unpack_event name e (unpack_events w filename outdir e he)]

theorem main_callback_outcome_count (w : World) (file : FileAction) (success : Bool)
    (name : String) :
    (main_callback w file success).countP (is_outcome name) =
      if file.name == name then 1 else 0 := by
  by_cases hu : file.actions.head? = some "unpack"
  · cases success
    · simp [main_callback, is_outcome, List.countP_cons]
    · rw [main_callback_unpack w file hu]
      cases hr : (unpack w file.name "output_directory").1 <;>
        simp [List.countP_cons, unpack_outcome_count, is_outcome]
  · rw [main_callback_no_unpack w file success hu]
    cases success <;> simp [is_outcome, List.countP_cons]

theorem artifact_outcome_count (w : World) (file : FileAction) (name : String) :
    (artifact_trace w file).countP (is_outcome name) = if file.name == name then 1 else 0 := by
  rw [artifact_trace, do_download_eq, List.countP_append, fetch_events_outcome_count,
    main_callback_outcome_count]
  simp

theorem flatMap_outcome_count (w : World) (files : List FileAction) (name : String) :
    (files.flatMap (artifact_trace w)).countP (is_outcome name) =
      files.countP (fun file => file.name == name) := by
  induction files with
  | nil => rfl
  | cons f fs ih =>
    rw [List.flatMap_cons, List.countP_append, ih, artifact_outcome_count, List.countP_cons]
    omega

theorem is_fetch_start_of_unpack_event (url name : String) (e : Event)
    (h : is_unpack_event e = true) : is_fetch_start url name e = false := by
  cases e with
  | curl_easy_init u f ok => simp [is_unpack_event, is_extractor_step] at h
  | _ => rfl

theorem fetch_events_start_count (w : World) (url file u n : String) :
    (fetch_events w url file).countP (is_fetch_start u n) =
      if url == u && file == n then 1 else 0 := by
  unfold fetch_events do_download
  cases h1 : w.curl_easy_init url file <;> cases h2 : w.fopen_s file <;>
    by_cases h3 : w.curl_easy_perform url file = CURLE_OK <;>
    simp [h3, is_fetch_start, List.countP_cons]

theorem main_callback_start_count (w : World) (file : FileAction) (success : Bool)
    (u n : String) : (main_callback w file success).countP (is_fetch_start u n) = 0 := by
  have hunpack : (unpack w file.name "output_directory").2.countP (is_fetch_start u n) = 0 := by
    rw [List.countP_eq_zero]
    intro e he
    simp [is_fetch_start_of_unpack_event u n e (unpack_events w _ _ e he)]
  by_cases hu : file.actions.head? = some "unpack"
  · cases success
    · simp [main_callback, is_fetch_start, List.countP_cons]
    · rw [main_callback_unpack w file hu]
      cases hr : (unpack w file.name "output_directory").1 <;>
        simp [List.countP_cons, hunpack, is_fetch_start]
  · rw [main_callback_no_unpack w file success hu]
    cases success <;> simp [is_fetch_start, List.countP_cons]

theorem flatMap_start_count (w : World) (files : List FileAction) (u n : String) :
    (files.flatMap (artifact_trace w)).countP (is_fetch_start u n) =
      files.countP (fun g => g.file == u && g.name == n) := by
  induction files with
  | nil => rfl
  | cons f fs ih =>
    rw [List.flatMap_cons, List.countP_append, ih, artifact_trace, do_download_eq,
      List.countP_append, fetch_events_start_count, main_callback_start_count,
      List.countP_cons]
    omega

theorem main_callback_last (w : World) (file : FileAction) (success : Bool) :
    ∃ e, (main_callback w file success).getLast? = some e ∧ is_report file.name e = true := by
  by_cases hu : file.actions.head? = some "unpack"
  · cases success
    · exact ⟨Event.cerr (Msg.load_failed file.name), by simp [main_callback],
        by simp [is_report]⟩
    · rw [main_callback_unpack w file hu]
      cases hr : (unpack w file.name "output_directory").1
      · refine ⟨Event.cerr (Msg.unpack_failed file.name), ?_, by simp [is_report]⟩
        rw [← List.cons_append, List.getLast?_append]
        simp
      · refine ⟨Event.cout (Msg.unpacked file.name), ?_, by simp [is_report]⟩
        rw [← List.cons_append, List.getLast?_append]
        simp
  · rw [main_callback_no_unpack w file success hu]
    cases success
    · exact ⟨Event.cerr (Msg.load_failed file.name), by simp, by simp [is_report]⟩
    · exact ⟨Event.cout (Msg.loaded file.name), by simp, by simp [is_report]⟩

theorem artifact_trace_last (w : World) (file : FileAction) :
    ∃ e, (artifact_trace w file).getLast? = some e ∧ is_report file.name e = true := by
  obtain ⟨e, he, hr⟩ := main_callback_last w file (fetch_result w file.file file.name)
  refine ⟨e, ?_, hr⟩
  rw [artifact_trace, do_download_eq, List.getLast?_append, he]
  rfl

theorem is_report_of_unpack_event (name : String) (e : Event) (h : is_unpack_event e = true) :
    is_report name e = false := by
  cases e with
  | cout m => simp [is_unpack_event, is_extractor_step] at h
  | cerr m => cases m <;> simp [is_unpack_event, is_extractor_step] at h <;> rfl
  | _ => rfl

theorem fetch_events_no_report (w : World) (url file name : String) :
    ∀ e ∈ fetch_events w url file, is_report name e = false := by
  unfold fetch_events do_download
  cases h1 : w.curl_easy_init url file <;> cases h2 : w.fopen_s file <;>
    by_cases h3 : w.curl_easy_perform url file = CURLE_OK <;>
    simp [h3, is_report]

theorem artifact_failed_iff_reported (w : World) (file : FileAction) :
    artifact_failed w file = true ↔
      (Event.cerr (Msg.load_failed file.name) ∈ artifact_trace w file ∨
        Event.cerr (Msg.unpack_failed file.name) ∈ artifact_trace w file) := by
  have hf1 : Event.cerr (Msg.load_failed file.name) ∉ fetch_events w file.file file.name := by
    intro hmem
    have := fetch_events_no_report w _ _ file.name _ hmem
    simp [is_report] at this
  have hf2 : Event.cerr (Msg.unpack_failed file.name) ∉ fetch_events w file.file file.name := by
    intro hmem
    have := fetch_events_no_report w _ _ file.name _ hmem
    simp [is_report] at this
  have hu1 : Event.cerr (Msg.load_failed file.name) ∉
      (unpack w file.name "output_directory").2 := by
    intro hmem
    have := is_report_of_unpack_event file.name _ (unpack_events w _ _ _ hmem)
    simp [is_report] at this
  have hu2 : Event.cerr (Msg.unpack_failed file.name) ∉
      (unpack w file.name "output_directory").2 := by
    intro hmem
    have := is_report_of_unpack_event file.name _ (unpack_events w _ _ _ hmem)
    simp [is_report] at this
  rw [artifact_trace, do_download_eq]
  simp only [List.mem_append, hf1, hf2, false_or]
  unfold artifact_failed
  cases hr : fetch_result w file.file file.name
  · simp [main_callback]
  · by_cases hhead : file.actions.head? = some "unpack"
    · have hne : file.actions.isEmpty = false := by
        cases hl : file.actions with
        | nil => rw [hl] at hhead; simp at hhead
        | cons a l => rfl
      rw [main_callback_unpack w file hhead]
      cases hun : (unpack w file.name "output_directory").1 <;>
        simp [hhead, hne, hu1, hu2]
    · have hb : (file.actions.head? == some "unpack") = false := by simpa using hhead
      rw [main_callback_no_unpack w file true hhead]
      simp [hb]

theorem is_unpack_report_of_unpack_event (name : String) (e : Event)
    (h : is_unpack_event e = true) : is_unpack_report name e = false := by
  cases e with
  | cout m => simp [is_unpack_event, is_extractor_step] at h
  | cerr m => cases m <;> simp [is_unpack_event, is_extractor_step] at h <;> rfl
  | _ => rfl

theorem fetch_events_unpack_report_count (w : World) (url file name : String) :
    (fetch_events w url file).countP (is_unpack_report name) = 0 := by
  unfold fetch_events do_download
  cases h1 : w.curl_easy_init url file <;> cases h2 : w.fopen_s file <;>
    by_cases h3 : w.curl_easy_perform url file = CURLE_OK <;>
    simp [h3, is_unpack_report, List.countP_cons]

theorem main_callback_unpack_report_count (w : World) (file : FileAction) (success : Bool) :
    (main_callback w file success).countP (is_unpack_report file.name) =
      if success = true ∧ file.actions.head? = some "unpack" then 1 else 0 := by
  have hunpack :
      (unpack w file.name "output_directory").2.countP (is_unpack_report file.name) = 0 := by
    rw [List.countP_eq_zero]
    intro e he
    simp [is_unpack_report_of_unpack_event file.name e (unpack_events w _ _ e he)]
  by_cases hu : file.actions.head? = some "unpack"
  · cases success
    · simp [main_callback, is_unpack_report, List.countP_cons]
    · rw [main_callback_unpack w file hu]
      cases hr : (unpack w file.name "output_directory").1 <;>
        simp [List.countP_cons, hunpack, is_unpack_report, hu]
  · rw [main_callback_no_unpack w file success hu]
    cases success <;> simp [is_unpack_report, List.countP_cons, hu]

theorem artifact_unpack_report_count (w : World) (file : FileAction) :
    (artifact_trace w file).countP (is_unpack_report file.name) =
      if fetch_result w file.file file.name = true ∧ file.actions.head? = some "unpack"
        then 1 else 0 := by
  rw [artifact_trace, do_download_eq, List.countP_append, fetch_events_unpack_report_count,
    main_callback_unpack_report_count]
  simp

theorem copyData_no_next_header (blocks : List DataBlock) :
    (copyData blocks).2.countP is_next_header = 0 := by
  induction blocks with
  | nil => simp [copyData, is_next_header, List.countP_cons]
  | cons b rest ih =>
    unfold copyData
    simp only
    split_ifs <;> simp only [List.countP_cons, List.countP_nil, is_next_header, ih] <;> simp

theorem entry_events_next_header_count (outdir : String) (entry : ArchiveEntry) :
    (entry_events outdir entry).countP is_next_header = 1 := by
  unfold entry_events
  simp only [List.countP_append]
  by_cases h1 : entry.header_result < 0 <;> by_cases h2 : entry.write_header_result < 0 <;>
    by_cases h3 : 0 < entry.size <;> by_cases h4 : entry.finish_result < 0 <;>
    simp [h1, h2, h3, h4, is_next_header, List.countP_cons, copyData_no_next_header]

theorem failing_entry_events_next_header_count (outdir : String) (entry : ArchiveEntry) :
    (failing_entry_events outdir entry).countP is_next_header = 1 := by
  unfold failing_entry_events
  split_ifs
  · simp [is_next_header, List.countP_cons]
  · exact entry_events_next_header_count outdir entry

theorem flatMap_entry_events_next_header_count (outdir : String) (entries : List ArchiveEntry) :
    (entries.flatMap (entry_events outdir)).countP is_next_header = entries.length := by
  induction entries with
  | nil => rfl
  | cons e es ih =>
    rw [List.flatMap_cons, List.countP_append, ih, entry_events_next_header_count,
      List.length_cons]
    omega

theorem unpack_loop_append_passes (outdir : String) (before rest : List ArchiveEntry)
    (h : ∀ p ∈ before, entry_passes p) :
    unpack_loop outdir (before ++ rest) =
      ((unpack_loop outdir rest).1,
        before.flatMap (entry_events outdir) ++ (unpack_loop outdir rest).2) := by
  induction before with
  | nil => rfl
  | cons p ps ih =>
    obtain ⟨h1, h2, h3⟩ := h p (List.mem_cons_self _ _)
    have ih2 := ih (fun q hq => h q (List.mem_cons_of_mem _ hq))
    rw [List.cons_append, unpack_loop_cons, ih2]
    simp [h1, h2, h3, List.flatMap_cons]

theorem unpack_loop_fails (outdir : String) (entry : ArchiveEntry) (after : List ArchiveEntry)
    (h1 : entry.header_result ≠ ARCHIVE_EOF)
    (h2 : entry.header_result < ARCHIVE_WARN ∨ entry.finish_result < ARCHIVE_WARN) :
    unpack_loop outdir (entry :: after) = (false, failing_entry_events outdir entry) := by
  rw [unpack_loop_cons]
  by_cases h3 : entry.header_result < ARCHIVE_WARN
  · simp [h1, h3]
  · have h4 : entry.finish_result < ARCHIVE_WARN := h2.resolve_left h3
    simp [h1, h3, h4, failing_entry_events]

theorem unpack_loop_true (outdir : String) (entries : List ArchiveEntry)
    (h : (unpack_loop outdir entries).1 = true) :
    ∀ entry ∈ entries.takeWhile (fun e => decide (e.header_result ≠ ARCHIVE_EOF)),
      ¬ entry.header_result < ARCHIVE_WARN ∧ ¬ entry.finish_result < ARCHIVE_WARN := by
  induction entries with
  | nil => simp
  | cons p ps ih =>
    rw [unpack_loop_cons] at h
    by_cases h1 : p.header_result = ARCHIVE_EOF
    · simp [List.takeWhile_cons, h1]
    · by_cases h2 : p.header_result < ARCHIVE_WARN
      · simp [h1, h2] at h
      · by_cases h3 : p.finish_result < ARCHIVE_WARN
        · simp [h1, h2, h3] at h
        · simp only [h1, h2, h3, if_false] at h
          intro entry he
          simp only [List.takeWhile_cons, ne_eq, h1, not_false_eq_true, decide_True, if_true,
            List.mem_cons] at he
          rcases he with he | he
          · subst he
            exact ⟨h2, h3⟩
          · exact ih h entry he

theorem artifact_trace_dependencies (w : World) (file : FileAction) (ds : List String) :
    artifact_trace w { file with dependencies := ds } = artifact_trace w file := rfl

theorem parseFiles_erase (w : World) (nodes : List FileNode) :
    (parseFiles (nodes.map (fun f => { f with dependencies := none }))).map
        (fun files => files.flatMap (artifact_trace w)) =
      (parseFiles nodes).map (fun files => files.flatMap (artifact_trace w)) := by
  induction nodes with
  | nil => rfl
  | cons n rest ih =>
    rcases n with ⟨name, file, actions, deps⟩
    cases name with
    | none => simp [parseFiles, parseFile]
    | some name =>
      cases file with
      | none => simp [parseFiles, parseFile]
      | some file =>
        simp only [List.map_cons, parseFiles, parseFile]
        cases h1 : parseFiles (rest.map (fun f => { f with dependencies := none })) <;>
          cases h2 : parseFiles rest <;> simp [h1, h2] at ih ⊢
        rw [ih]
        rfl

theorem parseConfig_erase (w : World) (config : YamlNode) :
    (parseConfig (erase_dependencies config)).map
        (fun cfg => cfg.files.flatMap (artifact_trace w)) =
      (parseConfig config).map (fun cfg => cfg.files.flatMap (artifact_trace w)) := by
  have h := parseFiles_erase w config.files
  unfold parseConfig erase_dependencies
  simp only
  cases h1 : parseFiles (config.files.map (fun f => { f with dependencies := none })) <;>
    cases h2 : parseFiles config.files <;> simp [h1, h2] at h ⊢
  cases config.host <;> cases config.endpoint <;> simp [h]

/-! ## C1: a dependent of a failed artifact -/

/-- C1, refuted as stated: in Scenario 2 (`B` lists `A`, the transfer of `A` fails) the
download of `B` is performed all the same and `B` is reported as downloaded. -/
theorem dependent_of_failed_artifact_is_fetched :
    parseConfig manifest_chain =
      some ⟨[⟨"A", "http://host/a", [], []⟩, ⟨"B", "http://host/b", [], ["A"]⟩], "host", "/"⟩ ∧
    fetch_result world_A_unreachable "http://host/a" "A" = false ∧
    (main (load_const manifest_chain) world_A_unreachable ["avs", "manifest.yaml"]).2 =
      [Event.curl_easy_init "http://host/a" "A" true, Event.fopen_s "A" true,
        Event.curl_easy_perform "http://host/a" "A" 7, Event.cerr (Msg.transfer_error 7),
        Event.cerr (Msg.load_failed "A"),
        Event.curl_easy_init "http://host/b" "B" true, Event.fopen_s "B" true,
        Event.curl_easy_perform "http://host/b" "B" 0, Event.cout (Msg.loaded "B")] := by
  decide

/-- C1, as amended: when artifact `B` lists artifact `A` in its dependencies and `A` fails
(its download, or its unpacking), `B` is dispatched all the same: the run performs the
download of `B` and the callback reports the outcome of that download, success or failure;
there is no skipped status. -/
theorem dependent_is_dispatched_regardless (LoadFile : String → Option YamlNode) (w : World)
    (prog path : String) (config : YamlNode) (cfg : Config) (h : LoadFile path = some config)
    (hp : parseConfig config = some cfg)
    (A B : FileAction) (_hA : A ∈ cfg.files) (hB : B ∈ cfg.files)
    (_hdep : A.name ∈ B.dependencies) (_hfail : artifact_failed w A = true) :
    Event.curl_easy_init B.file B.name (w.curl_easy_init B.file B.name) ∈
        (main LoadFile w [prog, path]).2 ∧
      (if fetch_result w B.file B.name then Event.cout (Msg.loaded B.name)
        else Event.cerr (Msg.load_failed B.name)) ∈ (main LoadFile w [prog, path]).2 := by
  constructor
  · apply mem_main_of_mem_artifact LoadFile w prog path config cfg h hp B hB
    obtain ⟨rest, hr⟩ := artifact_trace_head w B
    rw [hr]
    exact List.mem_cons_self _ _
  · apply mem_main_of_mem_artifact LoadFile w prog path config cfg h hp B hB
    rw [artifact_trace, do_download_eq]
    apply List.mem_append_right
    unfold main_callback
    cases fetch_result w B.file B.name <;> simp

/-- C1, an instance of the amended statement: Scenario 2 with the transfer of `A` failing. -/
theorem dependent_is_dispatched_regardless_witness :
    Event.curl_easy_init "http://host/b" "B" true ∈
        (main (load_const manifest_chain) world_A_unreachable ["avs", "manifest.yaml"]).2 ∧
      Event.cout (Msg.loaded "B") ∈
        (main (load_const manifest_chain) world_A_unreachable ["avs", "manifest.yaml"]).2 :=
  dependent_is_dispatched_regardless (load_const manifest_chain) world_A_unreachable
    "avs" "manifest.yaml" manifest_chain
    ⟨[⟨"A", "http://host/a", [], []⟩, ⟨"B", "http://host/b", [], ["A"]⟩], "host", "/"⟩
    rfl (by decide)
    ⟨"A", "http://host/a", [], []⟩ ⟨"B", "http://host/b", [], ["A"]⟩
    (by decide) (by decide) (by decide) (by decide)

/-! ## C2: the exit code -/

/-- C2, refuted as stated: the download of `A` fails and is reported as failed, and `main`
returns 0. -/
theorem exit_code_zero_after_failed_download :
    artifact_failed world_A_unreachable ⟨"A", "http://host/a", [], []⟩ = true ∧
    Event.cerr (Msg.load_failed "A") ∈
      (main (load_const manifest_chain) world_A_unreachable ["avs", "manifest.yaml"]).2 ∧
    (main (load_const manifest_chain) world_A_unreachable ["avs", "manifest.yaml"]).1 =
      Exit.returned 0 := by
  decide

/-- C2, as amended: for every manifest passed as the single positional argument that
`YAML::LoadFile` loads and `parseConfig` reads without an exception, `main` returns 0,
when every download and unpacking succeeds and also when an artifact fails: the exit code
is the same in every world.  A manifest that cannot be read ends `main` by an uncaught
exception, before any download. -/
theorem exit_code_ignores_failures (LoadFile : String → Option YamlNode) (w : World)
    (prog path : String) :
    (∀ config cfg, LoadFile path = some config → parseConfig config = some cfg →
      (main LoadFile w [prog, path]).1 = Exit.returned 0) ∧
    ((LoadFile path).bind parseConfig = none →
      main LoadFile w [prog, path] = (Exit.uncaught_exception, [])) := by
  refine ⟨?_, main_throws LoadFile w prog path⟩
  intro config cfg h hp
  rw [main_eq LoadFile w prog path config cfg h hp]

/-- C2, an instance of the amended statement: the output file of `A` cannot be opened,
and a manifest without `host` is not read. -/
theorem exit_code_ignores_failures_witness :
    (main (load_const manifest_chain) world_A_unwritable ["avs", "manifest.yaml"]).1 =
        Exit.returned 0 ∧
      main (load_const manifest_cycle_no_host) world_ok ["avs", "manifest.yaml"] =
        (Exit.uncaught_exception, []) :=
  ⟨(exit_code_ignores_failures (load_const manifest_chain) world_A_unwritable "avs"
      "manifest.yaml").1 manifest_chain
      ⟨[⟨"A", "http://host/a", [], []⟩, ⟨"B", "http://host/b", [], ["A"]⟩], "host", "/"⟩
      rfl (by decide),
    (exit_code_ignores_failures (load_const manifest_cycle_no_host) world_ok "avs"
      "manifest.yaml").2 (by decide)⟩

/-! ## C3: an unrecognised action kind -/

/-- C3, refuted as stated: in Scenario 5 (actions `fetch`, `badaction`, download
successful) the run reports the artifact as downloaded and reports no failure; it ends
with exit code 0. -/
theorem badaction_is_not_reported :
    main (load_const manifest_badaction) world_ok ["avs", "manifest.yaml"] =
      (Exit.returned 0,
        [Event.curl_easy_init "http://host/x" "X" true, Event.fopen_s "X" true,
          Event.curl_easy_perform "http://host/x" "X" 0, Event.cout (Msg.loaded "X")]) := by
  decide

/-- C3, as amended: for every artifact whose action list contains a kind other than
`fetch` and `unpack`, the download is still performed and nothing is done for the
unrecognised action, neither an extractor call nor an error report: the steps of the
artifact are those of the same artifact with the action list `["unpack"]` when its first
action is `unpack` and `[]` otherwise.  When the first action is not `unpack` (as in
`["fetch", "badaction"]`) the steps are the download followed by the single line that
reports the outcome of the download, and no step is an extractor call. -/
theorem unrecognised_action_is_ignored (w : World) (file : FileAction)
    (_h : ∃ a ∈ file.actions, a ≠ "fetch" ∧ a ≠ "unpack") :
    (∃ rest, artifact_trace w file =
      Event.curl_easy_init file.file file.name (w.curl_easy_init file.file file.name) :: rest) ∧
    artifact_trace w file = artifact_trace w (first_action_only file) ∧
    (file.actions.head? ≠ some "unpack" →
      artifact_trace w file = fetch_events w file.file file.name ++
        [if fetch_result w file.file file.name then Event.cout (Msg.loaded file.name)
          else Event.cerr (Msg.load_failed file.name)] ∧
      ∀ e ∈ artifact_trace w file, is_extractor_step e = false) := by
  refine ⟨artifact_trace_head w file, ?_, ?_⟩
  · unfold artifact_trace
    rw [do_download_eq, do_download_eq, main_callback_first_action_only]
    rfl
  · intro hne
    have key : artifact_trace w file = fetch_events w file.file file.name ++
        [if fetch_result w file.file file.name then Event.cout (Msg.loaded file.name)
          else Event.cerr (Msg.load_failed file.name)] := by
      rw [artifact_trace, do_download_eq, main_callback_no_unpack w file _ hne]
    refine ⟨key, ?_⟩
    intro e he
    rw [key, List.mem_append] at he
    rcases he with he | he
    · exact fetch_events_no_extractor w _ _ e he
    · cases hr : fetch_result w file.file file.name <;> simp [hr] at he <;> subst he <;> rfl

/-- C3, an instance of the amended statement: Scenario 5. -/
theorem unrecognised_action_is_ignored_witness :
    artifact_trace world_ok ⟨"X", "http://host/x", ["fetch", "badaction"], []⟩ =
      fetch_events world_ok "http://host/x" "X" ++ [Event.cout (Msg.loaded "X")] :=
  ((unrecognised_action_is_ignored world_ok ⟨"X", "http://host/x", ["fetch", "badaction"], []⟩
    ⟨"badaction", by decide, by decide, by decide⟩).2.2 (by decide)).1

/-! ## C4: a cyclic manifest -/

/-- C4, refuted as stated: in Scenario 4 (`A` depends on `B`, `B` depends on `A`) the run
does not fail: both downloads are performed and `main` returns 0. -/
theorem cyclic_manifest_is_run :
    has_cycle ⟨[⟨"A", "http://host/a", [], ["B"]⟩, ⟨"B", "http://host/b", [], ["A"]⟩],
      "host", "/"⟩ ∧
    parseConfig manifest_cycle =
      some ⟨[⟨"A", "http://host/a", [], ["B"]⟩, ⟨"B", "http://host/b", [], ["A"]⟩],
        "host", "/"⟩ ∧
    main (load_const manifest_cycle) world_ok ["avs", "manifest.yaml"] =
      (Exit.returned 0,
        [Event.curl_easy_init "http://host/a" "A" true, Event.fopen_s "A" true,
          Event.curl_easy_perform "http://host/a" "A" 0, Event.cout (Msg.loaded "A"),
          Event.curl_easy_init "http://host/b" "B" true, Event.fopen_s "B" true,
          Event.curl_easy_perform "http://host/b" "B" 0, Event.cout (Msg.loaded "B")]) := by
  refine ⟨⟨"A", Relation.TransGen.head (b := "B") ?_ (Relation.TransGen.single ?_)⟩,
    by decide, by decide⟩
  · exact ⟨⟨"A", "http://host/a", [], ["B"]⟩, by decide, rfl, by decide⟩
  · exact ⟨⟨"B", "http://host/b", [], ["A"]⟩, by decide, rfl, by decide⟩

/-- C4, as amended: for every manifest that `parseConfig` reads without an exception and
whose dependency relation contains a cycle, the cycle is not detected and the run does not
fail because of it: `main` performs the steps of every artifact, in manifest order, and
returns 0; in particular the download of every artifact is started. -/
theorem cyclic_manifest_runs_every_artifact (LoadFile : String → Option YamlNode) (w : World)
    (prog path : String) (config : YamlNode) (cfg : Config) (h : LoadFile path = some config)
    (hp : parseConfig config = some cfg) (_hc : has_cycle cfg) :
    main LoadFile w [prog, path] =
      (Exit.returned 0, cfg.files.flatMap (artifact_trace w)) ∧
    ∀ file ∈ cfg.files,
      Event.curl_easy_init file.file file.name (w.curl_easy_init file.file file.name) ∈
        (main LoadFile w [prog, path]).2 := by
  refine ⟨main_eq LoadFile w prog path config cfg h hp, ?_⟩
  intro file hf
  apply mem_main_of_mem_artifact LoadFile w prog path config cfg h hp file hf
  obtain ⟨rest, hr⟩ := artifact_trace_head w file
  rw [hr]
  exact List.mem_cons_self _ _

/-- C4, an instance of the amended statement: Scenario 4. -/
theorem cyclic_manifest_runs_every_artifact_witness :
    Event.curl_easy_init "http://host/b" "B" true ∈
      (main (load_const manifest_cycle) world_ok ["avs", "manifest.yaml"]).2 :=
  (cyclic_manifest_runs_every_artifact (load_const manifest_cycle) world_ok "avs"
    "manifest.yaml" manifest_cycle
    ⟨[⟨"A", "http://host/a", [], ["B"]⟩, ⟨"B", "http://host/b", [], ["A"]⟩], "host", "/"⟩
    rfl (by decide)
    ⟨"A", Relation.TransGen.head (b := "B")
      ⟨⟨"A", "http://host/a", [], ["B"]⟩, by decide, rfl, by decide⟩
      (Relation.TransGen.single ⟨⟨"B", "http://host/b", [], ["A"]⟩, by decide, rfl, by decide⟩)⟩).2
    ⟨"B", "http://host/b", [], ["A"]⟩ (by decide)

/-! ## C5: which actions are executed -/

/-- C5, refuted as stated: with the actions `fetch`, `unpack` and a successful download,
the extractor is not invoked: the run consists of the download and its report. -/
theorem unpack_in_second_position_is_not_run :
    fetch_result world_ok "http://host/x" "X" = true ∧
    "unpack" ∈ (⟨"X", "http://host/x", ["fetch", "unpack"], []⟩ : FileAction).actions ∧
    (main (load_const manifest_fetch_unpack) world_ok ["avs", "manifest.yaml"]).2 =
      [Event.curl_easy_init "http://host/x" "X" true, Event.fopen_s "X" true,
        Event.curl_easy_perform "http://host/x" "X" 0, Event.cout (Msg.loaded "X")] := by
  decide

/-- C5, as amended: for every artifact whose download succeeds, the only declared action
that is executed is an `unpack` in first position: after the download and its report the
extractor is invoked, once, on the downloaded file exactly when the first declared action
is `unpack`; otherwise no extractor call is made, whatever the rest of the list holds. -/
theorem unpack_runs_iff_first_action (w : World) (file : FileAction)
    (hok : fetch_result w file.file file.name = true) :
    (file.actions.head? = some "unpack" →
      artifact_trace w file = fetch_events w file.file file.name ++
        Event.cout (Msg.loaded file.name) :: ((unpack w file.name "output_directory").2 ++
          [if (unpack w file.name "output_directory").1 then Event.cout (Msg.unpacked file.name)
            else Event.cerr (Msg.unpack_failed file.name)])) ∧
    (file.actions.head? ≠ some "unpack" →
      artifact_trace w file =
        fetch_events w file.file file.name ++ [Event.cout (Msg.loaded file.name)] ∧
      ∀ e ∈ artifact_trace w file, is_extractor_step e = false) := by
  constructor
  · intro hu
    rw [artifact_trace, do_download_eq, hok, main_callback_unpack w file hu]
  · intro hne
    have key : artifact_trace w file =
        fetch_events w file.file file.name ++ [Event.cout (Msg.loaded file.name)] := by
      rw [artifact_trace, do_download_eq, hok, main_callback_no_unpack w file _ hne]
      rfl
    refine ⟨key, ?_⟩
    intro e he
    rw [key, List.mem_append] at he
    rcases he with he | he
    · exact fetch_events_no_extractor w _ _ e he
    · simp at he
      subst he
      rfl

/-- C5, an instance of the amended statement: the single action `unpack` and an empty
archive. -/
theorem unpack_runs_iff_first_action_witness :
    artifact_trace world_ok ⟨"X", "http://host/x", ["unpack"], []⟩ =
      [Event.curl_easy_init "http://host/x" "X" true, Event.fopen_s "X" true,
        Event.curl_easy_perform "http://host/x" "X" 0, Event.cout (Msg.loaded "X"),
        Event.archive_read_open_filename "X" 0, Event.archive_read_next_header 1,
        Event.cout (Msg.unpacked "X")] :=
  (unpack_runs_iff_first_action world_ok ⟨"X", "http://host/x", ["unpack"], []⟩
    (by decide)).1 (by decide)

/-! ## C6: a failed download -/

/-- C6, refuted as stated: the output file of `A` cannot be opened, so the download of `A`
fails, and the transfer is not attempted at all: `curl_easy_perform` is never called for
`A`. -/
theorem transfer_not_attempted_when_file_cannot_be_opened :
    fetch_result world_A_unwritable "http://host/a" "A" = false ∧
    (main (load_const manifest_chain) world_A_unwritable ["avs", "manifest.yaml"]).2 =
      [Event.curl_easy_init "http://host/a" "A" true, Event.fopen_s "A" false,
        Event.cerr (Msg.open_error "A"), Event.cerr (Msg.load_failed "A"),
        Event.curl_easy_init "http://host/b" "B" true, Event.fopen_s "B" true,
        Event.curl_easy_perform "http://host/b" "B" 0, Event.cout (Msg.loaded "B")] ∧
    (artifact_trace world_A_unwritable ⟨"A", "http://host/a", [], []⟩).countP is_transfer = 0 := by
  decide

/-- C6, as amended: when the download of an artifact of the manifest fails (the handle is
null, the output file cannot be opened, or the transfer returns an error), the download
is not retried: in the whole run `do_download` is entered for its URL and name as many
times as the manifest lists that URL and name, and its handler enters `do_download`
exactly once.  The transfer itself, `curl_easy_perform`, is attempted exactly once when
the handle and the output file are there (the failure is then a transfer error) and not at
all when the handle is null or the file cannot be opened.  No step of `unpack` is performed
for the artifact, and it is reported as failed: the last line of its handler is the
failure report and it is never reported as downloaded. -/
theorem failed_download_is_not_retried (LoadFile : String → Option YamlNode) (w : World)
    (prog path : String) (config : YamlNode) (cfg : Config) (h : LoadFile path = some config)
    (hp : parseConfig config = some cfg)
    (file : FileAction) (_hfile : file ∈ cfg.files)
    (hfail : fetch_result w file.file file.name = false) :
    (main LoadFile w [prog, path]).2.countP (is_fetch_start file.file file.name) =
      cfg.files.countP (fun g => g.file == file.file && g.name == file.name) ∧
    (artifact_trace w file).countP (is_fetch_start file.file file.name) = 1 ∧
    (artifact_trace w file).countP is_transfer =
      (if w.curl_easy_init file.file file.name && w.fopen_s file.name then 1 else 0) ∧
    (w.curl_easy_init file.file file.name = true → w.fopen_s file.name = true →
      w.curl_easy_perform file.file file.name ≠ CURLE_OK) ∧
    (∀ e ∈ artifact_trace w file, is_extractor_step e = false) ∧
    (artifact_trace w file).getLast? = some (Event.cerr (Msg.load_failed file.name)) ∧
    Event.cout (Msg.loaded file.name) ∉ artifact_trace w file := by
  refine ⟨?_, ?_⟩
  · rw [main_eq LoadFile w prog path config cfg h hp]
    exact flatMap_start_count w _ _ _
  · unfold fetch_result at hfail
    unfold artifact_trace do_download main_callback
    cases h1 : w.curl_easy_init file.file file.name <;> cases h2 : w.fopen_s file.name <;>
      by_cases h3 : w.curl_easy_perform file.file file.name = CURLE_OK <;>
      simp [h1, h2, h3] at hfail <;>
      simp [h3, is_fetch_start, is_transfer, is_extractor_step, List.countP_cons]

/-- C6, an instance of the amended statement: the transfer of `A` fails in Scenario 2. -/
theorem failed_download_is_not_retried_witness :
    fetch_result world_A_unreachable "http://host/a" "A" = false ∧
    (main (load_const manifest_chain) world_A_unreachable ["avs", "manifest.yaml"]).2.countP
      (is_fetch_start "http://host/a" "A") = 1 ∧
    (artifact_trace world_A_unreachable ⟨"A", "http://host/a", [], []⟩).countP
      is_transfer = 1 :=
  ⟨by decide,
    (failed_download_is_not_retried (load_const manifest_chain) world_A_unreachable "avs"
      "manifest.yaml" manifest_chain
      ⟨[⟨"A", "http://host/a", [], []⟩, ⟨"B", "http://host/b", [], ["A"]⟩], "host", "/"⟩
      rfl (by decide) ⟨"A", "http://host/a", [], []⟩ (by decide) (by decide)).1,
    (failed_download_is_not_retried (load_const manifest_chain) world_A_unreachable "avs"
      "manifest.yaml" manifest_chain
      ⟨[⟨"A", "http://host/a", [], []⟩, ⟨"B", "http://host/b", [], ["A"]⟩], "host", "/"⟩
      rfl (by decide) ⟨"A", "http://host/a", [], []⟩ (by decide) (by decide)).2.2.1⟩

/-! ## C7: the outcomes reported for an artifact -/

/-- C7, refuted as stated: in Scenario 1 with an archive that cannot be opened, the
download of `X` succeeds and its unpacking fails; the callback reports a success
(downloaded) and a failure (could not unpack) for the one artifact. -/
theorem download_succeeded_and_unpack_failed_are_both_reported :
    artifact_failed world_archive_unreadable ⟨"X", "http://host/x", ["unpack"], []⟩ = true ∧
    main (load_const manifest_unpack) world_archive_unreadable ["avs", "manifest.yaml"] =
      (Exit.returned 0,
        [Event.curl_easy_init "http://host/x" "X" true, Event.fopen_s "X" true,
          Event.curl_easy_perform "http://host/x" "X" 0, Event.cout (Msg.loaded "X"),
          Event.archive_read_open_filename "X" (-30),
          Event.cerr (Msg.archive_open_error "X"),
          Event.cerr (Msg.unpack_failed "X")]) := by
  decide

/-- C7, as amended: for every manifest that `parseConfig` reads without an exception
(acyclic and referentially valid or not), with the transport and the extractor answering,
the run ends, `main` returning 0 after the steps of every artifact in manifest order;
`do_download` calls its completion callback exactly once on every path, as its last step;
and the callback of `main` writes exactly one of the two lines that report the download of
its artifact as succeeded or as failed, so that in the whole run the number of such
reports for a name is the number of manifest entries of that name.  This is the outcome of
the download, not one outcome of the artifact: when the download succeeded and the first
action is `unpack`, the callback writes in addition exactly one of the two lines that
report the unpacking as done or as failed, and writes neither otherwise, so an artifact
whose unpacking fails has both a success line and a failure line. -/
theorem every_download_gets_one_outcome (LoadFile : String → Option YamlNode) (w : World)
    (prog path : String) (config : YamlNode) (cfg : Config) (h : LoadFile path = some config)
    (hp : parseConfig config = some cfg) :
    main LoadFile w [prog, path] =
      (Exit.returned 0, cfg.files.flatMap (artifact_trace w)) ∧
    (∀ url file, ∃ steps flag, ∀ callback : Bool → List Event,
      do_download w url file callback = steps ++ callback flag) ∧
    (∀ file success, (main_callback w file success).countP (is_outcome file.name) = 1) ∧
    (∀ name, (main LoadFile w [prog, path]).2.countP (is_outcome name) =
      cfg.files.countP (fun file => file.name == name)) ∧
    (∀ file, (artifact_trace w file).countP (is_unpack_report file.name) =
      if fetch_result w file.file file.name = true ∧ file.actions.head? = some "unpack"
        then 1 else 0) ∧
    (∀ file, fetch_result w file.file file.name = true →
      file.actions.head? = some "unpack" →
      (unpack w file.name "output_directory").1 = false →
      Event.cout (Msg.loaded file.name) ∈ artifact_trace w file ∧
        Event.cerr (Msg.unpack_failed file.name) ∈ artifact_trace w file) := by
  refine ⟨main_eq LoadFile w prog path config cfg h hp, ?_, ?_, ?_,
    artifact_unpack_report_count w, ?_⟩
  · intro url file
    exact ⟨fetch_events w url file, fetch_result w url file,
      fun callback => do_download_eq w url file callback⟩
  · intro file success
    rw [main_callback_outcome_count]
    simp
  · intro name
    rw [main_eq LoadFile w prog path config cfg h hp]
    exact flatMap_outcome_count w _ name
  · intro file hok hu hfail
    rw [artifact_trace, do_download_eq, hok, main_callback_unpack w file hu, hfail]
    simp

/-- C7, an instance of the amended statement: Scenario 1 with an archive that cannot be
opened. -/
theorem every_download_gets_one_outcome_witness :
    (main (load_const manifest_unpack) world_archive_unreadable
        ["avs", "manifest.yaml"]).2.countP (is_outcome "X") = 1 ∧
      (Event.cout (Msg.loaded "X") ∈
          artifact_trace world_archive_unreadable ⟨"X", "http://host/x", ["unpack"], []⟩ ∧
        Event.cerr (Msg.unpack_failed "X") ∈
          artifact_trace world_archive_unreadable ⟨"X", "http://host/x", ["unpack"], []⟩) :=
  ⟨(every_download_gets_one_outcome (load_const manifest_unpack) world_archive_unreadable
      "avs" "manifest.yaml" manifest_unpack
      ⟨[⟨"X", "http://host/x", ["unpack"], []⟩], "host", "/"⟩ rfl (by decide)).2.2.2.1 "X",
    (every_download_gets_one_outcome (load_const manifest_unpack) world_archive_unreadable
      "avs" "manifest.yaml" manifest_unpack
      ⟨[⟨"X", "http://host/x", ["unpack"], []⟩], "host", "/"⟩ rfl (by decide)).2.2.2.2.2
      ⟨"X", "http://host/x", ["unpack"], []⟩ (by decide) (by decide) (by decide)⟩

/-! ## C8: a failure does not reach the other artifacts -/

theorem artifact_trace_congr (w w2 : World) (file : FileAction)
    (h1 : ∀ url, w.curl_easy_init url file.name = w2.curl_easy_init url file.name)
    (h2 : w.fopen_s file.name = w2.fopen_s file.name)
    (h3 : ∀ url, w.curl_easy_perform url file.name = w2.curl_easy_perform url file.name)
    (h4 : w.archive_read_open_filename file.name = w2.archive_read_open_filename file.name)
    (h5 : w.archive_entries file.name = w2.archive_entries file.name) :
    artifact_trace w file = artifact_trace w2 file := by
  unfold artifact_trace do_download main_callback unpack
  rw [h1, h2, h3, h4, h5]

/-- C8: a failure of artifact `X` stays with `X`.  Let the worlds `w` and `w2` answer
alike every call that is not made for the file of `X` (so `X` may fail in `w` and succeed
in `w2`).  Then every other artifact `Y` of the manifest, dependent of `X` or not, is
dispatched in the run under `w`, and the steps it performs there, its download and its
actions, are exactly the steps it performs under `w2`. -/
theorem failure_is_isolated (LoadFile : String → Option YamlNode) (w w2 : World)
    (prog path : String) (config : YamlNode) (cfg : Config) (h : LoadFile path = some config)
    (hp : parseConfig config = some cfg)
    (X Y : FileAction) (hagree : agree_off X.name w w2)
    (hY : Y ∈ cfg.files) (hne : Y.name ≠ X.name) :
    artifact_trace w Y = artifact_trace w2 Y ∧
    (∃ rest, artifact_trace w2 Y =
      Event.curl_easy_init Y.file Y.name (w2.curl_easy_init Y.file Y.name) :: rest) ∧
    ∃ earlier later, (main LoadFile w [prog, path]).2 =
      earlier ++ artifact_trace w2 Y ++ later := by
  obtain ⟨h1, h2, h3, h4, h5⟩ := hagree Y.name hne
  have heq : artifact_trace w Y = artifact_trace w2 Y :=
    artifact_trace_congr w w2 Y h1 h2 h3 h4 h5
  refine ⟨heq, artifact_trace_head w2 Y, ?_⟩
  obtain ⟨l1, l2, hl⟩ := List.append_of_mem hY
  refine ⟨l1.flatMap (artifact_trace w), l2.flatMap (artifact_trace w), ?_⟩
  rw [main_eq LoadFile w prog path config cfg h hp, hl, ← heq]
  simp [List.flatMap_append, List.flatMap_cons]

/-- C8, an instance: the transfer of `A` fails in one world and succeeds in the other. -/
theorem failure_is_isolated_witness :
    artifact_trace world_A_unreachable ⟨"B", "http://host/b", [], ["A"]⟩ =
      artifact_trace world_ok ⟨"B", "http://host/b", [], ["A"]⟩ :=
  (failure_is_isolated (load_const manifest_chain) world_A_unreachable world_ok "avs"
    "manifest.yaml" manifest_chain
    ⟨[⟨"A", "http://host/a", [], []⟩, ⟨"B", "http://host/b", [], ["A"]⟩], "host", "/"⟩
    rfl (by decide) ⟨"A", "http://host/a", [], []⟩
    ⟨"B", "http://host/b", [], ["A"]⟩
    (by
      intro file hfile
      have hf : (file = "A") = False := eq_false hfile
      simp [world_A_unreachable, world_ok, hf])
    (by decide) (by decide)).1

/-! ## C9: `unpack` and the first unrecoverable failure -/

/-- C9, refuted as stated: `archive_write_header` answers `ARCHIVE_FATAL` for the first
entry; `unpack` goes on to finish that entry, processes the second entry and returns
`true`. -/
theorem unpack_continues_after_write_header_failure :
    entry_write_header_fatal.write_header_result < ARCHIVE_WARN ∧
    unpack (world_archive [entry_write_header_fatal, entry_fine]) "a.tar" "out" =
      (true,
        [Event.archive_read_open_filename "a.tar" 0,
          Event.archive_read_next_header 0,
          Event.archive_write_header "out/first" (-30), Event.cerr Msg.archive_error,
          Event.archive_write_finish_entry 0,
          Event.archive_read_next_header 0,
          Event.archive_write_header "out/second" 0,
          Event.archive_write_finish_entry 0,
          Event.archive_read_next_header 1]) := by
  decide

/-- C9, as amended.  Take an archive that opens, and an entry of it such that every entry
before it is read and finished without a code below `ARCHIVE_WARN` and no `copyData` call
up to it has returned such a code.

* Abort: when `archive_read_next_header` or `archive_write_finish_entry` yields a code
  below `ARCHIVE_WARN` for that entry, `unpack` returns `false`; its steps are the steps of
  the earlier entries followed by those of the failing entry, and it reads as many headers
  as there are entries up to and including the failing one: no later entry is processed.
* No abort on a header that cannot be written: when `archive_write_header` yields a code
  below `ARCHIVE_WARN` for that entry, which is otherwise read and finished, the steps for
  it are: read the header, write the header, an error line, finish the entry, with no
  data copied; `unpack` then goes on with the entries after it.
* `unpack` returns `true` only if the archive opened and neither reading the header nor
  finishing the entry yielded a code below `ARCHIVE_WARN` for any entry before the end of
  the archive. -/
theorem unpack_aborts_on_header_or_finish_failure (w : World) (filename outdir : String) :
    (∀ before entry after,
      w.archive_read_open_filename filename = 0 →
      w.archive_entries filename = before ++ entry :: after →
      (∀ p ∈ before, entry_passes p) →
      (∀ p ∈ before ++ [entry], ¬ copy_unrecoverable p) →
      entry.header_result ≠ ARCHIVE_EOF →
      (entry.header_result < ARCHIVE_WARN ∨ entry.finish_result < ARCHIVE_WARN) →
      unpack w filename outdir =
        (false, Event.archive_read_open_filename filename 0 ::
          (before.flatMap (entry_events outdir) ++ failing_entry_events outdir entry)) ∧
      (unpack w filename outdir).2.countP is_next_header = before.length + 1) ∧
    (∀ before entry after,
      w.archive_read_open_filename filename = 0 →
      w.archive_entries filename = before ++ entry :: after →
      (∀ p ∈ before, entry_passes p) →
      (∀ p ∈ before, ¬ copy_unrecoverable p) →
      entry_passes entry →
      entry.write_header_result < ARCHIVE_WARN →
      unpack w filename outdir =
        ((unpack_loop outdir after).1, Event.archive_read_open_filename filename 0 ::
          (before.flatMap (entry_events outdir) ++
            ([Event.archive_read_next_header entry.header_result] ++
              (if entry.header_result < 0 then [Event.cerr Msg.archive_error] else []) ++
              [Event.archive_write_header (outdir ++ "/" ++ entry.pathname)
                  entry.write_header_result,
                Event.cerr Msg.archive_error,
                Event.archive_write_finish_entry entry.finish_result] ++
              (if entry.finish_result < 0 then [Event.cerr Msg.archive_error] else [])) ++
            (unpack_loop outdir after).2))) ∧
    ((unpack w filename outdir).1 = true →
      w.archive_read_open_filename filename = 0 ∧
      ∀ entry ∈ (w.archive_entries filename).takeWhile
          (fun e => decide (e.header_result ≠ ARCHIVE_EOF)),
        ¬ entry.header_result < ARCHIVE_WARN ∧ ¬ entry.finish_result < ARCHIVE_WARN) := by
  refine ⟨?_, ?_, ?_⟩
  · intro before entry after hopen hent hbefore _ h1 h2
    have key : unpack w filename outdir =
        (false, Event.archive_read_open_filename filename 0 ::
          (before.flatMap (entry_events outdir) ++ failing_entry_events outdir entry)) := by
      unfold unpack
      rw [hopen, hent, unpack_loop_append_passes outdir before _ hbefore,
        unpack_loop_fails outdir entry after h1 h2]
      simp
    refine ⟨key, ?_⟩
    rw [key]
    simp only [List.countP_cons, List.countP_append, flatMap_entry_events_next_header_count,
      failing_entry_events_next_header_count, is_next_header]
    simp
  · intro before entry after hopen hent hbefore _ hpass hwrite
    obtain ⟨h1, h2, h3⟩ := hpass
    have hw : entry.write_header_result < 0 := by
      unfold ARCHIVE_WARN at hwrite
      omega
    have hev : entry_events outdir entry =
        [Event.archive_read_next_header entry.header_result] ++
          (if entry.header_result < 0 then [Event.cerr Msg.archive_error] else []) ++
          [Event.archive_write_header (outdir ++ "/" ++ entry.pathname)
              entry.write_header_result,
            Event.cerr Msg.archive_error,
            Event.archive_write_finish_entry entry.finish_result] ++
          (if entry.finish_result < 0 then [Event.cerr Msg.archive_error] else []) := by
      unfold entry_events
      simp [hw]
    unfold unpack
    rw [hopen, hent, unpack_loop_append_passes outdir before _ hbefore, unpack_loop_cons,
      ← hev]
    simp [h1, h2, h3]
  · intro h
    by_cases hopen : w.archive_read_open_filename filename = 0
    · refine ⟨hopen, ?_⟩
      apply unpack_loop_true outdir
      simpa [unpack, hopen] using h
    · simp [unpack, hopen] at h

/-- C9, an instance of the amended statement: an archive whose second entry cannot be
finished, and an archive whose first entry has a header that cannot be written. -/
theorem unpack_aborts_on_header_or_finish_failure_witness :
    unpack (world_archive [entry_fine, entry_finish_failed, entry_fine]) "a.tar" "out" =
        (false,
          [Event.archive_read_open_filename "a.tar" 0,
            Event.archive_read_next_header 0,
            Event.archive_write_header "out/second" 0,
            Event.archive_write_finish_entry 0,
            Event.archive_read_next_header 0,
            Event.archive_write_header "out/first" 0,
            Event.archive_write_finish_entry (-25), Event.cerr Msg.archive_error]) ∧
      unpack (world_archive [entry_write_header_fatal, entry_fine]) "a.tar" "out" =
        (true,
          [Event.archive_read_open_filename "a.tar" 0,
            Event.archive_read_next_header 0,
            Event.archive_write_header "out/first" (-30), Event.cerr Msg.archive_error,
            Event.archive_write_finish_entry 0,
            Event.archive_read_next_header 0,
            Event.archive_write_header "out/second" 0,
            Event.archive_write_finish_entry 0,
            Event.archive_read_next_header 1]) :=
  ⟨((unpack_aborts_on_header_or_finish_failure
      (world_archive [entry_fine, entry_finish_failed, entry_fine]) "a.tar" "out").1
      [entry_fine] entry_finish_failed [entry_fine] rfl rfl
      (by
        intro p hp
        rw [List.mem_singleton] at hp
        subst hp
        exact ⟨by decide, by decide, by decide⟩)
      (by
        intro p hp
        have hsize : p.size = 0 := by
          simp only [List.singleton_append, List.mem_cons, List.mem_singleton,
            List.not_mem_nil, or_false] at hp
          rcases hp with hp | hp <;> subst hp <;> rfl
        intro hc
        have := hc.2.1
        omega)
      (by decide) (Or.inr (by decide))).1,
    (unpack_aborts_on_header_or_finish_failure
      (world_archive [entry_write_header_fatal, entry_fine]) "a.tar" "out").2.1
      [] entry_write_header_fatal [entry_fine] rfl rfl
      (by simp) (by simp)
      ⟨by decide, by decide, by decide⟩ (by decide)⟩

/-- The result of `copyData` is dropped (line 160): `archive_write_data_block` answers
`ARCHIVE_FATAL` for the first entry, `copyData` returns that code, and `unpack` goes on
to finish the entry, processes the second entry and returns `true`. -/
theorem unpack_drops_copyData_result :
    (copyData entry_copy_fatal.blocks).1 = ARCHIVE_FATAL ∧
    unpack (world_archive [entry_copy_fatal, entry_fine]) "a.tar" "out" =
      (true,
        [Event.archive_read_open_filename "a.tar" 0,
          Event.archive_read_next_header 0,
          Event.archive_write_header "out/first" 0,
          Event.archive_read_data_block 0, Event.archive_write_data_block (-30),
          Event.cerr Msg.archive_error,
          Event.archive_write_finish_entry 0,
          Event.archive_read_next_header 0,
          Event.archive_write_header "out/second" 0,
          Event.archive_write_finish_entry 0,
          Event.archive_read_next_header 1]) := by
  decide

/-- The result of `archive_write_data_block` is narrowed to `int` (line 114): the
`la_ssize_t` value `4294967266` is `-30` in `write_result`, so `copyData` writes the
error line, stops and returns `-30`. -/
theorem copyData_narrows_write_result :
    copyData [⟨0, 4294967266⟩, ⟨0, 0⟩] =
      (-30, [Event.archive_read_data_block 0, Event.archive_write_data_block 4294967266,
        Event.cerr Msg.archive_error]) := by
  decide

/-! ## C10: the dependencies are not used -/

theorem main_erase_dependencies (LoadFile : String → Option YamlNode) (w : World)
    (argv : List String) :
    main LoadFile w argv = main (fun p => (LoadFile p).map erase_dependencies) w argv := by
  unfold main
  by_cases hlen : argv.length < 2
  · simp [hlen]
  · simp only [hlen, if_false]
    cases hl : LoadFile (argv.getD 1 "") with
    | none => simp
    | some config =>
      have hE := parseConfig_erase w config
      cases h1 : parseConfig config <;> cases h2 : parseConfig (erase_dependencies config) <;>
        simp [h1, h2] at hE ⊢
      rw [run_post_all, run_post_all, hE]

/-- C10: the dependencies are parsed and never used.  When two loaders yield, for every
path, documents that differ only in the `dependencies` of their entries, `main` performs
the same steps, with the same arguments and results, in the same order, and ends the same
way. -/
theorem dependencies_are_not_used (LoadFile LoadFile2 : String → Option YamlNode) (w : World)
    (argv : List String)
    (h : ∀ p, (LoadFile p).map erase_dependencies = (LoadFile2 p).map erase_dependencies) :
    main LoadFile w argv = main LoadFile2 w argv := by
  rw [main_erase_dependencies LoadFile, main_erase_dependencies LoadFile2]
  have hfun : (fun p => (LoadFile p).map erase_dependencies) =
      (fun p => (LoadFile2 p).map erase_dependencies) := funext h
  rw [hfun]

/-- C10, an instance: Scenario 2 with and without the dependency of `B` on `A`. -/
theorem dependencies_are_not_used_witness :
    main (load_const manifest_chain) world_A_unreachable ["avs", "manifest.yaml"] =
      main (load_const manifest_chain_nodeps) world_A_unreachable ["avs", "manifest.yaml"] :=
  dependencies_are_not_used (load_const manifest_chain) (load_const manifest_chain_nodeps)
    world_A_unreachable ["avs", "manifest.yaml"]
    (fun _ => congrArg some
      (by decide : erase_dependencies manifest_chain = erase_dependencies manifest_chain_nodeps))

end AVS
